import Mathlib

/-!
# Verification of the Arm_cordinate firmware (chatbot.ino)

The repository ships a single Arduino sketch file containing two near-duplicate
firmware variants for a five-servo robotic arm driven over HTTP+JSON:

* `V1` — the first sketch (no gripper target variable: the gripper servo is
  written directly by the command handler; `SET_ANGLES` requires the
  `base`, `shoulder` and `elbow` fields; the stepper loop steps the four
  positional joints only).
* `V2` — the second sketch (a `targetGripperAngle` variable, commented
  `0 for closed, 120 for open`; every angle field of `SET_ANGLES` is
  optional; the stepper loop also steps the gripper).

Servos are modelled by their last commanded angle: `Servo.read()` returns the
value of the most recent `Servo.write()`, so each servo is one `Int` field of
the state.  HTTP/JSON plumbing is library code; a parsed request is either
"no body", "invalid JSON", or a decoded command document with the optional
fields the handlers look at.  `WiFi.status()` is a boolean state field read
by the telemetry handler.
-/

set_option autoImplicit false

namespace ArmFw

/-- Arduino's `constrain(amt, low, high)` macro:
`(amt < low ? low : (amt > high ? high : amt))`. -/
def constrain (x lo hi : Int) : Int :=
  if x < lo then lo else if x > hi then hi else x

/-- One stepper move: `current + step` where
`step = (target > current) ? 1 : -1`. -/
def moveOne (c t : Int) : Int :=
  c + (if t > c then 1 else -1)

/-- An HTTP response: status code and the JSON `status` string sent in the
body (the content type is the constant `application/json`). -/
structure Response where
  code : Nat
  status : String
deriving DecidableEq, Repr

/-- The parsed JSON command document: the `command` string and the optional
fields the handlers inspect (`doc.containsKey(k)` is `none`/`some`). -/
structure CommandDoc where
  command : String
  base? : Option Int
  shoulder? : Option Int
  elbow? : Option Int
  wrist? : Option Int
  gripper? : Option String
deriving DecidableEq, Repr

/-- A POST request to `/api/arm/command` as the handler perceives it:
no `plain` body, a body that fails `deserializeJson`, or a decoded doc. -/
inductive Req where
  | noBody : Req
  | badJson : Req
  | ok : CommandDoc → Req
deriving DecidableEq, Repr

/-- The JSON telemetry payload of `/api/arm/telemetry` together with the
HTTP status code. -/
structure Telemetry where
  code : Nat
  baseAngle : Int
  shoulderAngle : Int
  elbowAngle : Int
  wristAngle : Int
  gripperState : String
  systemStatus : String
  boardType : String
deriving DecidableEq, Repr

/-! ## Variant 1 — the first sketch (file lines 1–191) -/

namespace V1

/-- Mutable firmware state of the first sketch: the four target-angle
globals, the gripper flag (`false = Open, true = Closed`), the last
commanded angle of each servo, and WiFi connectivity. -/
structure State where
  targetBaseAngle : Int
  targetShoulderAngle : Int
  targetElbowAngle : Int
  targetWristAngle : Int
  gripperState : Bool
  baseServo : Int
  shoulderServo : Int
  elbowServo : Int
  wristServo : Int
  gripperServo : Int
  wifiConnected : Bool
deriving DecidableEq, Repr

/-- State after `setup()`: targets initialised to 90, servos written to the
targets, gripper written `gripperState ? 120 : 0 = 0`. -/
def init : State :=
  { targetBaseAngle := 90, targetShoulderAngle := 90
    targetElbowAngle := 90, targetWristAngle := 90
    gripperState := false
    baseServo := 90, shoulderServo := 90, elbowServo := 90, wristServo := 90
    gripperServo := 0
    wifiConnected := true }

/-- `handleCommand()` of the first sketch. -/
def handleCommand (r : Req) (s : State) : Response × State :=
  match r with
  | .noBody => (⟨400, "No command provided"⟩, s)
  | .badJson => (⟨400, "Invalid JSON"⟩, s)
  | .ok doc =>
    if doc.command = "SET_ANGLES" then
      match doc.base?, doc.shoulder?, doc.elbow? with
      | some b, some sh, some e =>
        let s1 : State :=
          { s with targetBaseAngle := constrain b 0 180
                   targetShoulderAngle := constrain sh 0 170
                   targetElbowAngle := constrain e 0 170 }
        let s2 : State :=
          match doc.wrist? with
          | some w => { s1 with targetWristAngle := constrain w 0 180 }
          | none => s1
        let s3 : State :=
          match doc.gripper? with
          | some g =>
            if g = "open" then { s2 with gripperServo := 0, gripperState := false }
            else if g = "close" then { s2 with gripperServo := 120, gripperState := true }
            else s2
          | none => s2
        (⟨200, "Movement initiated"⟩, s3)
      | _, _, _ => (⟨400, "Missing angle parameters"⟩, s)
    else if doc.command = "GRIPPER_TOGGLE" then
      let gs := !s.gripperState
      (⟨200, "Gripper toggled"⟩,
        { s with gripperState := gs, gripperServo := if gs then 120 else 0 })
    else if doc.command = "EMERGENCY_STOP" then
      (⟨200, "Stop initiated"⟩,
        { s with targetBaseAngle := 90, targetShoulderAngle := 90
                 targetElbowAngle := 90, targetWristAngle := 90
                 gripperServo := 0, gripperState := false })
    else
      (⟨400, "Legacy commands not supported"⟩, s)

/-- The body of the non-blocking movement logic in `loop()` (executed once
per elapsed `MOVE_DELAY` interval): the first joint, in the order base,
shoulder, elbow, wrist, whose read-back differs from its target is stepped
one degree toward the target; the `return` skips the rest. -/
def tick (s : State) : State :=
  if s.baseServo ≠ s.targetBaseAngle then
    { s with baseServo := s.baseServo + (if s.targetBaseAngle > s.baseServo then 1 else -1) }
  else if s.shoulderServo ≠ s.targetShoulderAngle then
    { s with shoulderServo := s.shoulderServo + (if s.targetShoulderAngle > s.shoulderServo then 1 else -1) }
  else if s.elbowServo ≠ s.targetElbowAngle then
    { s with elbowServo := s.elbowServo + (if s.targetElbowAngle > s.elbowServo then 1 else -1) }
  else if s.wristServo ≠ s.targetWristAngle then
    { s with wristServo := s.wristServo + (if s.targetWristAngle > s.wristServo then 1 else -1) }
  else s

/-- `handleTelemetry()` of the first sketch: serialises the servo
read-backs, the gripper flag and connectivity; contains no assignment, so
the state passes through unchanged. -/
def handleTelemetry (s : State) : Telemetry × State :=
  (⟨200, s.baseServo, s.shoulderServo, s.elbowServo, s.wristServo,
    if s.gripperState then "Closed" else "Open",
    if s.wifiConnected then "Operational" else "Error",
    "ESP8266"⟩, s)

/-- The joints examined by the first sketch's stepper, in its order. -/
inductive Joint where
  | base | shoulder | elbow | wrist
deriving DecidableEq, Repr

/-- Read-back (current actuator) angle of a joint. -/
def currentOf (s : State) : Joint → Int
  | .base => s.baseServo
  | .shoulder => s.shoulderServo
  | .elbow => s.elbowServo
  | .wrist => s.wristServo

/-- Stored target angle of a joint. -/
def targetOf (s : State) : Joint → Int
  | .base => s.targetBaseAngle
  | .shoulder => s.targetShoulderAngle
  | .elbow => s.targetElbowAngle
  | .wrist => s.targetWristAngle

/-- The first joint, in the stepper's fixed priority order, whose current
angle differs from its target. -/
def firstOff (s : State) : Option Joint :=
  if s.baseServo ≠ s.targetBaseAngle then some .base
  else if s.shoulderServo ≠ s.targetShoulderAngle then some .shoulder
  else if s.elbowServo ≠ s.targetElbowAngle then some .elbow
  else if s.wristServo ≠ s.targetWristAngle then some .wrist
  else none

/-- All joints at target: the condition under which the stepper does
nothing. -/
def allAtTarget (s : State) : Prop :=
  s.baseServo = s.targetBaseAngle ∧ s.shoulderServo = s.targetShoulderAngle ∧
  s.elbowServo = s.targetElbowAngle ∧ s.wristServo = s.targetWristAngle

instance (s : State) : Decidable (allAtTarget s) := by
  unfold allAtTarget; infer_instance

/-- Total remaining distance to target, summed over the stepped joints. -/
def dist (s : State) : Nat :=
  (s.targetBaseAngle - s.baseServo).natAbs +
  (s.targetShoulderAngle - s.shoulderServo).natAbs +
  (s.targetElbowAngle - s.elbowServo).natAbs +
  (s.targetWristAngle - s.wristServo).natAbs

end V1

/-! ## Variant 2 — the second sketch (file lines 192–401) -/

namespace V2

/-- Mutable firmware state of the second sketch: adds the
`targetGripperAngle` global (source comment: `0 for closed, 120 for open`). -/
structure State where
  targetBaseAngle : Int
  targetShoulderAngle : Int
  targetElbowAngle : Int
  targetWristAngle : Int
  targetGripperAngle : Int
  gripperState : Bool
  baseServo : Int
  shoulderServo : Int
  elbowServo : Int
  wristServo : Int
  gripperServo : Int
  wifiConnected : Bool
deriving DecidableEq, Repr

/-- State after `setup()`: positional targets 90, `targetGripperAngle`
120, each servo written to its target. -/
def init : State :=
  { targetBaseAngle := 90, targetShoulderAngle := 90
    targetElbowAngle := 90, targetWristAngle := 90
    targetGripperAngle := 120
    gripperState := false
    baseServo := 90, shoulderServo := 90, elbowServo := 90, wristServo := 90
    gripperServo := 120
    wifiConnected := true }

/-- `handleCommand()` of the second sketch: every `SET_ANGLES` field is
optional; `GRIPPER_TOGGLE` takes an optional explicit `gripper` field and
otherwise toggles. -/
def handleCommand (r : Req) (s : State) : Response × State :=
  match r with
  | .noBody => (⟨400, "No command provided"⟩, s)
  | .badJson => (⟨400, "Invalid JSON"⟩, s)
  | .ok doc =>
    if doc.command = "SET_ANGLES" then
      let s1 : State :=
        match doc.base? with
        | some b => { s with targetBaseAngle := constrain b 0 180 }
        | none => s
      let s2 : State :=
        match doc.shoulder? with
        | some sh => { s1 with targetShoulderAngle := constrain sh 0 170 }
        | none => s1
      let s3 : State :=
        match doc.elbow? with
        | some e => { s2 with targetElbowAngle := constrain e 0 170 }
        | none => s2
      let s4 : State :=
        match doc.wrist? with
        | some w => { s3 with targetWristAngle := constrain w 0 180 }
        | none => s3
      let s5 : State :=
        match doc.gripper? with
        | some g =>
          if g = "close" then { s4 with targetGripperAngle := 0, gripperState := true }
          else if g = "open" then { s4 with targetGripperAngle := 120, gripperState := false }
          else s4
        | none => s4
      (⟨200, "Movement initiated"⟩, s5)
    else if doc.command = "GRIPPER_TOGGLE" then
      match doc.gripper? with
      | some g =>
        if g = "close" then
          (⟨200, "Gripper movement initiated"⟩,
            { s with targetGripperAngle := 0, gripperState := true })
        else if g = "open" then
          (⟨200, "Gripper movement initiated"⟩,
            { s with targetGripperAngle := 120, gripperState := false })
        else (⟨200, "Gripper movement initiated"⟩, s)
      | none =>
        let gs := !s.gripperState
        (⟨200, "Gripper movement initiated"⟩,
          { s with gripperState := gs, targetGripperAngle := if gs then 120 else 0 })
    else if doc.command = "EMERGENCY_STOP" then
      (⟨200, "Stop initiated"⟩,
        { s with targetBaseAngle := 90, targetShoulderAngle := 90
                 targetElbowAngle := 90, targetWristAngle := 90
                 targetGripperAngle := 120, gripperState := false })
    else
      (⟨400, "Legacy commands not supported"⟩, s)

/-- The movement logic of the second sketch's `loop()`: same as `V1.tick`
but the gripper is a fifth stepped joint. -/
def tick (s : State) : State :=
  if s.baseServo ≠ s.targetBaseAngle then
    { s with baseServo := s.baseServo + (if s.targetBaseAngle > s.baseServo then 1 else -1) }
  else if s.shoulderServo ≠ s.targetShoulderAngle then
    { s with shoulderServo := s.shoulderServo + (if s.targetShoulderAngle > s.shoulderServo then 1 else -1) }
  else if s.elbowServo ≠ s.targetElbowAngle then
    { s with elbowServo := s.elbowServo + (if s.targetElbowAngle > s.elbowServo then 1 else -1) }
  else if s.wristServo ≠ s.targetWristAngle then
    { s with wristServo := s.wristServo + (if s.targetWristAngle > s.wristServo then 1 else -1) }
  else if s.gripperServo ≠ s.targetGripperAngle then
    { s with gripperServo := s.gripperServo + (if s.targetGripperAngle > s.gripperServo then 1 else -1) }
  else s

/-- `handleTelemetry()` of the second sketch (identical to the first). -/
def handleTelemetry (s : State) : Telemetry × State :=
  (⟨200, s.baseServo, s.shoulderServo, s.elbowServo, s.wristServo,
    if s.gripperState then "Closed" else "Open",
    if s.wifiConnected then "Operational" else "Error",
    "ESP8266"⟩, s)

/-- The joints examined by the second sketch's stepper, in its order. -/
inductive Joint where
  | base | shoulder | elbow | wrist | gripper
deriving DecidableEq, Repr

/-- Read-back (current actuator) angle of a joint. -/
def currentOf (s : State) : Joint → Int
  | .base => s.baseServo
  | .shoulder => s.shoulderServo
  | .elbow => s.elbowServo
  | .wrist => s.wristServo
  | .gripper => s.gripperServo

/-- Stored target angle of a joint. -/
def targetOf (s : State) : Joint → Int
  | .base => s.targetBaseAngle
  | .shoulder => s.targetShoulderAngle
  | .elbow => s.targetElbowAngle
  | .wrist => s.targetWristAngle
  | .gripper => s.targetGripperAngle

/-- The first joint, in the stepper's fixed priority order, whose current
angle differs from its target. -/
def firstOff (s : State) : Option Joint :=
  if s.baseServo ≠ s.targetBaseAngle then some .base
  else if s.shoulderServo ≠ s.targetShoulderAngle then some .shoulder
  else if s.elbowServo ≠ s.targetElbowAngle then some .elbow
  else if s.wristServo ≠ s.targetWristAngle then some .wrist
  else if s.gripperServo ≠ s.targetGripperAngle then some .gripper
  else none

/-- All joints at target: the condition under which the stepper does
nothing. -/
def allAtTarget (s : State) : Prop :=
  s.baseServo = s.targetBaseAngle ∧ s.shoulderServo = s.targetShoulderAngle ∧
  s.elbowServo = s.targetElbowAngle ∧ s.wristServo = s.targetWristAngle ∧
  s.gripperServo = s.targetGripperAngle

instance (s : State) : Decidable (allAtTarget s) := by
  unfold allAtTarget; infer_instance

/-- Total remaining distance to target, summed over the stepped joints. -/
def dist (s : State) : Nat :=
  (s.targetBaseAngle - s.baseServo).natAbs +
  (s.targetShoulderAngle - s.shoulderServo).natAbs +
  (s.targetElbowAngle - s.elbowServo).natAbs +
  (s.targetWristAngle - s.wristServo).natAbs +
  (s.targetGripperAngle - s.gripperServo).natAbs

end V2

/-! ## Execution model

A run of the firmware after `setup()` is an interleaving of handled
commands and stepper ticks (the single-threaded `loop()` alternates
between `server.handleClient()`, which may invoke `handleCommand`, and the
movement logic). -/

/-- One event of a firmware run: a handled POST to `/api/arm/command`, or
one execution of the stepper's movement body. -/
inductive Step where
  | cmd : Req → Step
  | tick : Step
deriving DecidableEq, Repr

/-- Apply one event to a variant-1 state (the response is discarded). -/
def stepA (s : V1.State) : Step → V1.State
  | .cmd r => (V1.handleCommand r s).2
  | .tick => V1.tick s

/-- Apply one event to a variant-2 state (the response is discarded). -/
def stepB (s : V2.State) : Step → V2.State
  | .cmd r => (V2.handleCommand r s).2
  | .tick => V2.tick s

/-- Variant-1 state after running a sequence of events from `setup()`. -/
def runA (evs : List Step) : V1.State := evs.foldl stepA V1.init

/-- Variant-2 state after running a sequence of events from `setup()`. -/
def runB (evs : List Step) : V2.State := evs.foldl stepB V2.init

/-- Hardware-safe ranges of the first sketch: base/wrist targets in
[0, 180], shoulder/elbow targets in [0, 170], and the commanded gripper
angle (the last value written to the gripper servo) either 0 or 120. -/
def targetsOkA (s : V1.State) : Prop :=
  0 ≤ s.targetBaseAngle ∧ s.targetBaseAngle ≤ 180 ∧
  0 ≤ s.targetShoulderAngle ∧ s.targetShoulderAngle ≤ 170 ∧
  0 ≤ s.targetElbowAngle ∧ s.targetElbowAngle ≤ 170 ∧
  0 ≤ s.targetWristAngle ∧ s.targetWristAngle ≤ 180 ∧
  (s.gripperServo = 0 ∨ s.gripperServo = 120)

/-- Hardware-safe ranges of the second sketch: base/wrist targets in
[0, 180], shoulder/elbow targets in [0, 170], and the stored gripper
target either 0 or 120. -/
def targetsOkB (s : V2.State) : Prop :=
  0 ≤ s.targetBaseAngle ∧ s.targetBaseAngle ≤ 180 ∧
  0 ≤ s.targetShoulderAngle ∧ s.targetShoulderAngle ≤ 170 ∧
  0 ≤ s.targetElbowAngle ∧ s.targetElbowAngle ≤ 170 ∧
  0 ≤ s.targetWristAngle ∧ s.targetWristAngle ≤ 180 ∧
  (s.targetGripperAngle = 0 ∨ s.targetGripperAngle = 120)

/-- The requests the first sketch's `handleCommand` rejects with 400: no
body, invalid JSON, a `SET_ANGLES` whose required `base`/`shoulder`/`elbow`
field is missing, or an unrecognized command name. -/
def badReqA : Req → Prop
  | .noBody => True
  | .badJson => True
  | .ok d =>
      (d.command = "SET_ANGLES" ∧
        (d.base? = none ∨ d.shoulder? = none ∨ d.elbow? = none)) ∨
      (d.command ≠ "SET_ANGLES" ∧ d.command ≠ "GRIPPER_TOGGLE" ∧
        d.command ≠ "EMERGENCY_STOP")

/-- The requests the second sketch's `handleCommand` rejects with 400: no
body, invalid JSON, or an unrecognized command name (no angle field is
required there). -/
def badReqB : Req → Prop
  | .noBody => True
  | .badJson => True
  | .ok d =>
      d.command ≠ "SET_ANGLES" ∧ d.command ≠ "GRIPPER_TOGGLE" ∧
      d.command ≠ "EMERGENCY_STOP"

/-- The four descriptive 400 status strings of the first sketch. -/
def errStatusesA : List String :=
  ["No command provided", "Invalid JSON", "Missing angle parameters",
   "Legacy commands not supported"]

/-- Effect of one optional `SET_ANGLES` field on a stored target: present
fields are clamped and stored, absent fields leave the old target. -/
def updTarget (o : Option Int) (lo hi old : Int) : Int :=
  match o with
  | some v => constrain v lo hi
  | none => old

/-! ### Helper lemmas -/

theorem constrain180_lb (x : Int) : 0 ≤ constrain x 0 180 := by
  unfold constrain; split_ifs <;> omega

theorem constrain180_ub (x : Int) : constrain x 0 180 ≤ 180 := by
  unfold constrain; split_ifs <;> omega

theorem constrain170_lb (x : Int) : 0 ≤ constrain x 0 170 := by
  unfold constrain; split_ifs <;> omega

theorem constrain170_ub (x : Int) : constrain x 0 170 ≤ 170 := by
  unfold constrain; split_ifs <;> omega

set_option maxHeartbeats 2000000 in
theorem handleA_preserves (r : Req) (s : V1.State) (h : targetsOkA s) :
    targetsOkA (V1.handleCommand r s).2 := by
  match r with
  | .noBody => exact h
  | .badJson => exact h
  | .ok ⟨cmd, b?, sh?, e?, w?, g?⟩ =>
    rcases b? with _ | b <;> rcases sh? with _ | sh <;> rcases e? with _ | e <;>
      rcases w? with _ | w <;> rcases g? with _ | g <;>
      simp only [V1.handleCommand] <;>
      split_ifs <;>
      simp_all [targetsOkA, constrain180_lb, constrain180_ub,
        constrain170_lb, constrain170_ub]

theorem tickA_preserves (s : V1.State) (h : targetsOkA s) :
    targetsOkA (V1.tick s) := by
  unfold V1.tick
  unfold targetsOkA at h ⊢
  split_ifs <;> simp_all

theorem stepA_preserves (s : V1.State) (ev : Step) (h : targetsOkA s) :
    targetsOkA (stepA s ev) := by
  match ev with
  | .cmd r => exact handleA_preserves r s h
  | .tick => exact tickA_preserves s h

set_option maxHeartbeats 4000000 in
theorem handleB_preserves (r : Req) (s : V2.State) (h : targetsOkB s) :
    targetsOkB (V2.handleCommand r s).2 := by
  match r with
  | .noBody => exact h
  | .badJson => exact h
  | .ok ⟨cmd, b?, sh?, e?, w?, g?⟩ =>
    rcases b? with _ | b <;> rcases sh? with _ | sh <;> rcases e? with _ | e <;>
      rcases w? with _ | w <;> rcases g? with _ | g <;>
      simp only [V2.handleCommand] <;>
      split_ifs <;>
      simp_all [targetsOkB, constrain180_lb, constrain180_ub,
        constrain170_lb, constrain170_ub]

theorem tickB_preserves (s : V2.State) (h : targetsOkB s) :
    targetsOkB (V2.tick s) := by
  unfold V2.tick
  unfold targetsOkB at h ⊢
  split_ifs <;> simp_all

theorem stepB_preserves (s : V2.State) (ev : Step) (h : targetsOkB s) :
    targetsOkB (stepB s ev) := by
  match ev with
  | .cmd r => exact handleB_preserves r s h
  | .tick => exact tickB_preserves s h

theorem runA_ok (evs : List Step) : targetsOkA (runA evs) := by
  have key : ∀ (l : List Step) (s : V1.State), targetsOkA s → targetsOkA (l.foldl stepA s) := by
    intro l
    induction l with
    | nil => intro s h; exact h
    | cons ev tl ih =>
      intro s h
      exact ih _ (stepA_preserves s ev h)
  exact key evs V1.init (by unfold targetsOkA V1.init; norm_num)

theorem runB_ok (evs : List Step) : targetsOkB (runB evs) := by
  have key : ∀ (l : List Step) (s : V2.State), targetsOkB s → targetsOkB (l.foldl stepB s) := by
    intro l
    induction l with
    | nil => intro s h; exact h
    | cons ev tl ih =>
      intro s h
      exact ih _ (stepB_preserves s ev h)
  exact key evs V2.init (by unfold targetsOkB V2.init; norm_num)

theorem tickA_first (s : V1.State) (j : V1.Joint) (h : V1.firstOff s = some j) :
    V1.currentOf (V1.tick s) j = moveOne (V1.currentOf s j) (V1.targetOf s j) ∧
    (∀ k, k ≠ j → V1.currentOf (V1.tick s) k = V1.currentOf s k) ∧
    (∀ k, V1.targetOf (V1.tick s) k = V1.targetOf s k) := by
  unfold V1.firstOff at h
  split_ifs at h with h1 h2 h3 h4 <;> injection h with h
  all_goals subst h
  all_goals refine ⟨?_, fun k hk => ?_, fun k => ?_⟩
  all_goals first
    | (simp_all [V1.tick, V1.currentOf, V1.targetOf, moveOne]; done)
    | (cases k <;> simp_all [V1.tick, V1.currentOf, V1.targetOf])

theorem tickB_first (s : V2.State) (j : V2.Joint) (h : V2.firstOff s = some j) :
    V2.currentOf (V2.tick s) j = moveOne (V2.currentOf s j) (V2.targetOf s j) ∧
    (∀ k, k ≠ j → V2.currentOf (V2.tick s) k = V2.currentOf s k) ∧
    (∀ k, V2.targetOf (V2.tick s) k = V2.targetOf s k) := by
  unfold V2.firstOff at h
  split_ifs at h with h1 h2 h3 h4 h5 <;> injection h with h
  all_goals subst h
  all_goals refine ⟨?_, fun k hk => ?_, fun k => ?_⟩
  all_goals first
    | (simp_all [V2.tick, V2.currentOf, V2.targetOf, moveOne]; done)
    | (cases k <;> simp_all [V2.tick, V2.currentOf, V2.targetOf])

theorem distA_zero_iff (s : V1.State) : V1.dist s = 0 ↔ V1.allAtTarget s := by
  unfold V1.dist V1.allAtTarget
  omega

theorem distB_zero_iff (s : V2.State) : V2.dist s = 0 ↔ V2.allAtTarget s := by
  unfold V2.dist V2.allAtTarget
  omega

theorem tickA_noop (s : V1.State) (h : V1.allAtTarget s) : V1.tick s = s := by
  unfold V1.allAtTarget at h
  unfold V1.tick
  split_ifs <;> simp_all

theorem tickB_noop (s : V2.State) (h : V2.allAtTarget s) : V2.tick s = s := by
  unfold V2.allAtTarget at h
  unfold V2.tick
  split_ifs <;> simp_all

theorem tickA_dist (s : V1.State) (h : ¬ V1.allAtTarget s) :
    V1.dist (V1.tick s) + 1 = V1.dist s := by
  unfold V1.allAtTarget at h
  unfold V1.tick
  split_ifs with h1 h2 h3 h4 <;> unfold V1.dist <;> simp_all <;> omega

theorem tickB_dist (s : V2.State) (h : ¬ V2.allAtTarget s) :
    V2.dist (V2.tick s) + 1 = V2.dist s := by
  unfold V2.allAtTarget at h
  unfold V2.tick
  split_ifs with h1 h2 h3 h4 h5 <;> unfold V2.dist <;> simp_all <;> omega

theorem tickA_reaches : ∀ (n : Nat) (s : V1.State), V1.dist s = n →
    V1.allAtTarget (V1.tick^[n] s) := by
  intro n
  induction n with
  | zero =>
    intro s h
    simpa using (distA_zero_iff s).mp h
  | succ k ih =>
    intro s h
    have hoff : ¬ V1.allAtTarget s := by
      intro hat
      rw [(distA_zero_iff s).mpr hat] at h
      exact Nat.succ_ne_zero k h.symm
    rw [Function.iterate_succ_apply]
    exact ih (V1.tick s) (by have := tickA_dist s hoff; omega)

theorem tickB_reaches : ∀ (n : Nat) (s : V2.State), V2.dist s = n →
    V2.allAtTarget (V2.tick^[n] s) := by
  intro n
  induction n with
  | zero =>
    intro s h
    simpa using (distB_zero_iff s).mp h
  | succ k ih =>
    intro s h
    have hoff : ¬ V2.allAtTarget s := by
      intro hat
      rw [(distB_zero_iff s).mpr hat] at h
      exact Nat.succ_ne_zero k h.symm
    rw [Function.iterate_succ_apply]
    exact ih (V2.tick s) (by have := tickB_dist s hoff; omega)

/-! ## Claim theorems -/

/-- C1: Along every interleaving of handled commands and stepper ticks
from the post-`setup()` state, the stored target angles stay in the
hardware-safe per-joint ranges — base and wrist targets in [0, 180],
shoulder and elbow targets in [0, 170] — and the commanded gripper angle
(the gripper servo write in the first sketch, the stored gripper target in
the second) is always either 0 or 120: every command clamps a requested
angle with `constrain` before storing it. -/
theorem targets_always_in_safe_ranges (evs : List Step) :
    targetsOkA (runA evs) ∧ targetsOkB (runB evs) :=
  ⟨runA_ok evs, runB_ok evs⟩

/-- C2: On each stepper tick the joints are examined in the fixed priority
order base, shoulder, elbow, wrist (then gripper, in the second sketch
which steps it); the first joint whose current actuator angle differs from
its target moves exactly one degree toward the target (`current + 1` if
`target > current`, else `current - 1`), every other joint keeps its
current angle, and no target changes — so at most one joint moves per
tick. -/
theorem stepper_moves_first_off_joint :
    (∀ (s : V1.State) (j : V1.Joint), V1.firstOff s = some j →
      V1.currentOf (V1.tick s) j = moveOne (V1.currentOf s j) (V1.targetOf s j) ∧
      (∀ k, k ≠ j → V1.currentOf (V1.tick s) k = V1.currentOf s k) ∧
      (∀ k, V1.targetOf (V1.tick s) k = V1.targetOf s k)) ∧
    (∀ (s : V2.State) (j : V2.Joint), V2.firstOff s = some j →
      V2.currentOf (V2.tick s) j = moveOne (V2.currentOf s j) (V2.targetOf s j) ∧
      (∀ k, k ≠ j → V2.currentOf (V2.tick s) k = V2.currentOf s k) ∧
      (∀ k, V2.targetOf (V2.tick s) k = V2.targetOf s k)) :=
  ⟨tickA_first, tickB_first⟩

/-- Witness for C2: from the initial state with the base servo at 50, a
tick moves only the base, to 51; with only the gripper servo off target in
the second sketch, a tick moves the gripper from 0 to 1. -/
theorem stepper_moves_first_off_joint_witness :
    V1.currentOf (V1.tick { V1.init with baseServo := 50 }) V1.Joint.base = 51 ∧
    V1.currentOf (V1.tick { V1.init with baseServo := 50 }) V1.Joint.wrist = 90 ∧
    V2.currentOf (V2.tick { V2.init with gripperServo := 0 }) V2.Joint.gripper = 1 := by
  have hA := stepper_moves_first_off_joint.1
    { V1.init with baseServo := 50 } V1.Joint.base (by decide)
  have hB := stepper_moves_first_off_joint.2
    { V2.init with gripperServo := 0 } V2.Joint.gripper (by decide)
  exact ⟨hA.1.trans (by decide),
    (hA.2.1 V1.Joint.wrist (by decide)).trans (by decide),
    hB.1.trans (by decide)⟩

/-- C3: For every assignment of targets and every starting configuration
of current angles, iterating the stepper tick reaches an all-at-target
state after finitely many ticks (`dist s` of them; the total distance to
target strictly decreases while any joint is off target), and once all
joints are at target a further tick changes nothing. -/
theorem stepper_terminates :
    (∀ s : V1.State,
      V1.allAtTarget (V1.tick^[V1.dist s] s) ∧
      (¬ V1.allAtTarget s → V1.dist (V1.tick s) < V1.dist s) ∧
      (V1.allAtTarget s → V1.tick s = s)) ∧
    (∀ s : V2.State,
      V2.allAtTarget (V2.tick^[V2.dist s] s) ∧
      (¬ V2.allAtTarget s → V2.dist (V2.tick s) < V2.dist s) ∧
      (V2.allAtTarget s → V2.tick s = s)) := by
  constructor
  · intro s
    refine ⟨tickA_reaches (V1.dist s) s rfl, fun h => ?_, tickA_noop s⟩
    have := tickA_dist s h
    omega
  · intro s
    refine ⟨tickB_reaches (V2.dist s) s rfl, fun h => ?_, tickB_noop s⟩
    have := tickB_dist s h
    omega

/-- Witness for C3: with the base servo at 88 (two degrees off), the run
reaches target; one tick strictly decreases the distance; a tick at the
initial (all-at-target) state is a no-op — and likewise for the second
sketch with the wrist servo at 0. -/
theorem stepper_terminates_witness :
    V1.allAtTarget
      (V1.tick^[V1.dist { V1.init with baseServo := 88 }] { V1.init with baseServo := 88 }) ∧
    V1.dist (V1.tick { V1.init with baseServo := 88 }) <
      V1.dist { V1.init with baseServo := 88 } ∧
    V1.tick V1.init = V1.init ∧
    V2.allAtTarget
      (V2.tick^[V2.dist { V2.init with wristServo := 0 }] { V2.init with wristServo := 0 }) ∧
    V2.dist (V2.tick { V2.init with wristServo := 0 }) <
      V2.dist { V2.init with wristServo := 0 } ∧
    V2.tick V2.init = V2.init := by
  have hA := stepper_terminates.1 { V1.init with baseServo := 88 }
  have hA0 := stepper_terminates.1 V1.init
  have hB := stepper_terminates.2 { V2.init with wristServo := 0 }
  have hB0 := stepper_terminates.2 V2.init
  exact ⟨hA.1, hA.2.1 (by decide), hA0.2.2 (by decide),
    hB.1, hB.2.1 (by decide), hB0.2.2 (by decide)⟩

/-- C4 (the code violates the claim): in the second sketch — whose own
comment on `targetGripperAngle` reads `0 for closed, 120 for open`, and
whose explicit open/close paths store 0 for close and 120 for open — a
`GRIPPER_TOGGLE` with no `gripper` field, sent from the initial state,
sets the flag to closed while storing 120, the open angle; an explicit
close stores 0 with the same flag value. The same flag value thus pairs
with both gripper angles, so the flag is not in sync with the commanded
gripper angle after every handled command. -/
theorem gripper_toggle_desyncs_flag :
    ((V2.handleCommand
        (.ok ⟨"GRIPPER_TOGGLE", none, none, none, none, none⟩) V2.init).2.gripperState
        = true ∧
     (V2.handleCommand
        (.ok ⟨"GRIPPER_TOGGLE", none, none, none, none, none⟩) V2.init).2.targetGripperAngle
        = 120) ∧
    ((V2.handleCommand
        (.ok ⟨"GRIPPER_TOGGLE", none, none, none, none, some "close"⟩) V2.init).2.gripperState
        = true ∧
     (V2.handleCommand
        (.ok ⟨"GRIPPER_TOGGLE", none, none, none, none, some "close"⟩) V2.init).2.targetGripperAngle
        = 0) :=
  ⟨⟨rfl, rfl⟩, rfl, rfl⟩

/-- C5: the command handler answers 400 exactly on: no body, invalid
JSON, a `SET_ANGLES` missing a required angle field (`base`, `shoulder`
or `elbow`; only the first sketch requires any), and unrecognized command
names — and each 400 of the first sketch carries one of its four
descriptive status strings. -/
theorem command_handler_400_exactly (r : Req) (sA : V1.State) (sB : V2.State) :
    ((V1.handleCommand r sA).1.code = 400 ↔ badReqA r) ∧
    ((V2.handleCommand r sB).1.code = 400 ↔ badReqB r) ∧
    ((V1.handleCommand r sA).1.code = 400 →
      (V1.handleCommand r sA).1.status ∈ errStatusesA) := by
  match r with
  | .noBody =>
    exact ⟨by simp [V1.handleCommand, badReqA],
      by simp [V2.handleCommand, badReqB],
      by intro _; simp [V1.handleCommand, errStatusesA]⟩
  | .badJson =>
    exact ⟨by simp [V1.handleCommand, badReqA],
      by simp [V2.handleCommand, badReqB],
      by intro _; simp [V1.handleCommand, errStatusesA]⟩
  | .ok ⟨cmd, b?, sh?, e?, w?, g?⟩ =>
    refine ⟨?_, ?_, ?_⟩
    · rcases b? with _ | b <;> rcases sh? with _ | sh <;> rcases e? with _ | e <;>
        simp only [V1.handleCommand] <;> split_ifs <;>
        simp_all [badReqA]
    · rcases g? with _ | g <;>
        simp only [V2.handleCommand] <;> split_ifs <;> simp_all [badReqB]
    · rcases b? with _ | b <;> rcases sh? with _ | sh <;> rcases e? with _ | e <;>
        simp only [V1.handleCommand] <;> split_ifs <;>
        intro hc <;> simp_all [errStatusesA]

/-- Witness for C5: the body-less request is rejected with 400 and a
descriptive status by both sketches. -/
theorem command_handler_400_exactly_witness :
    ((V1.handleCommand .noBody V1.init).1.code = 400 ↔ badReqA .noBody) ∧
    ((V2.handleCommand .noBody V2.init).1.code = 400 ↔ badReqB .noBody) ∧
    (V1.handleCommand .noBody V1.init).1.status ∈ errStatusesA := by
  have h := command_handler_400_exactly .noBody V1.init V2.init
  exact ⟨h.1, h.2.1, h.2.2 (by decide)⟩

/-- C6: for every state, the telemetry handler returns 200 and reports
the servo read-back angles (not the stored targets), the gripper flag as
`Closed`/`Open`, and connectivity as `Operational`/`Error`; on a state
whose base servo has not yet reached its target, the reported angle
differs from the target. -/
theorem telemetry_reports_readback (sA : V1.State) (sB : V2.State) :
    ((V1.handleTelemetry sA).1.code = 200 ∧
     (V1.handleTelemetry sA).1.baseAngle = sA.baseServo ∧
     (V1.handleTelemetry sA).1.shoulderAngle = sA.shoulderServo ∧
     (V1.handleTelemetry sA).1.elbowAngle = sA.elbowServo ∧
     (V1.handleTelemetry sA).1.wristAngle = sA.wristServo ∧
     (V1.handleTelemetry sA).1.gripperState
        = (if sA.gripperState then "Closed" else "Open") ∧
     (V1.handleTelemetry sA).1.systemStatus
        = (if sA.wifiConnected then "Operational" else "Error")) ∧
    ((V2.handleTelemetry sB).1.code = 200 ∧
     (V2.handleTelemetry sB).1.baseAngle = sB.baseServo ∧
     (V2.handleTelemetry sB).1.shoulderAngle = sB.shoulderServo ∧
     (V2.handleTelemetry sB).1.elbowAngle = sB.elbowServo ∧
     (V2.handleTelemetry sB).1.wristAngle = sB.wristServo ∧
     (V2.handleTelemetry sB).1.gripperState
        = (if sB.gripperState then "Closed" else "Open") ∧
     (V2.handleTelemetry sB).1.systemStatus
        = (if sB.wifiConnected then "Operational" else "Error")) ∧
    (V2.handleTelemetry { V2.init with baseServo := 10 }).1.baseAngle ≠
      ({ V2.init with baseServo := 10 } : V2.State).targetBaseAngle :=
  ⟨⟨rfl, rfl, rfl, rfl, rfl, rfl, rfl⟩,
   ⟨rfl, rfl, rfl, rfl, rfl, rfl, rfl⟩,
   by decide⟩

/-- C7: in the second sketch every `SET_ANGLES` angle field is optional:
a present field stores the clamped requested value, an absent field
leaves the previous target unchanged, and the handler answers 200. -/
theorem set_angles_fields_optional (s : V2.State) (d : CommandDoc)
    (h : d.command = "SET_ANGLES") :
    (V2.handleCommand (.ok d) s).1.code = 200 ∧
    (V2.handleCommand (.ok d) s).2.targetBaseAngle
      = updTarget d.base? 0 180 s.targetBaseAngle ∧
    (V2.handleCommand (.ok d) s).2.targetShoulderAngle
      = updTarget d.shoulder? 0 170 s.targetShoulderAngle ∧
    (V2.handleCommand (.ok d) s).2.targetElbowAngle
      = updTarget d.elbow? 0 170 s.targetElbowAngle ∧
    (V2.handleCommand (.ok d) s).2.targetWristAngle
      = updTarget d.wrist? 0 180 s.targetWristAngle := by
  obtain ⟨cmd, b?, sh?, e?, w?, g?⟩ := d
  simp only [CommandDoc.command] at h
  subst h
  rcases b? with _ | b <;> rcases sh? with _ | sh <;> rcases e? with _ | e <;>
    rcases w? with _ | w <;> rcases g? with _ | g <;>
    simp only [V2.handleCommand, updTarget] <;> split_ifs <;>
    simp_all

/-- Witness for C7: a `SET_ANGLES` with `base = 200`, `elbow = -5` and no
other field clamps the base to 180, the elbow to 0, leaves the shoulder
target at its previous 90, and answers 200. -/
theorem set_angles_fields_optional_witness :
    (V2.handleCommand
       (.ok ⟨"SET_ANGLES", some 200, none, some (-5), none, none⟩) V2.init).1.code = 200 ∧
    (V2.handleCommand
       (.ok ⟨"SET_ANGLES", some 200, none, some (-5), none, none⟩) V2.init).2.targetBaseAngle = 180 ∧
    (V2.handleCommand
       (.ok ⟨"SET_ANGLES", some 200, none, some (-5), none, none⟩) V2.init).2.targetShoulderAngle = 90 ∧
    (V2.handleCommand
       (.ok ⟨"SET_ANGLES", some 200, none, some (-5), none, none⟩) V2.init).2.targetElbowAngle = 0 := by
  have h := set_angles_fields_optional V2.init
    ⟨"SET_ANGLES", some 200, none, some (-5), none, none⟩ rfl
  exact ⟨h.1, h.2.1.trans (by decide), h.2.2.1.trans (by decide),
    h.2.2.2.1.trans (by decide)⟩

/-- C8: whenever the command handler answers 400, the whole mutable state
— targets, gripper flag, commanded servo positions — is exactly as before
the request, in both sketches. -/
theorem error_responses_atomic (r : Req) (sA : V1.State) (sB : V2.State) :
    ((V1.handleCommand r sA).1.code = 400 → (V1.handleCommand r sA).2 = sA) ∧
    ((V2.handleCommand r sB).1.code = 400 → (V2.handleCommand r sB).2 = sB) := by
  match r with
  | .noBody => exact ⟨fun _ => rfl, fun _ => rfl⟩
  | .badJson => exact ⟨fun _ => rfl, fun _ => rfl⟩
  | .ok ⟨cmd, b?, sh?, e?, w?, g?⟩ =>
    constructor
    · rcases b? with _ | b <;> rcases sh? with _ | sh <;> rcases e? with _ | e <;>
        simp only [V1.handleCommand] <;> split_ifs <;> simp_all
    · rcases g? with _ | g <;>
        simp only [V2.handleCommand] <;> split_ifs <;> simp_all

/-- Witness for C8: the invalid-JSON request leaves the initial state of
both sketches unchanged. -/
theorem error_responses_atomic_witness :
    (V1.handleCommand .badJson V1.init).2 = V1.init ∧
    (V2.handleCommand .badJson V2.init).2 = V2.init := by
  have h := error_responses_atomic .badJson V1.init V2.init
  exact ⟨h.1 (by decide), h.2 (by decide)⟩

/-- C9: the telemetry handler is read-only: it returns the state
unchanged, and a second telemetry request against the resulting state
yields the same response. -/
theorem telemetry_read_only (sA : V1.State) (sB : V2.State) :
    (V1.handleTelemetry sA).2 = sA ∧
    (V1.handleTelemetry ((V1.handleTelemetry sA).2)).1 = (V1.handleTelemetry sA).1 ∧
    (V2.handleTelemetry sB).2 = sB ∧
    (V2.handleTelemetry ((V2.handleTelemetry sB).2)).1 = (V2.handleTelemetry sB).1 :=
  ⟨rfl, rfl, rfl, rfl⟩

/-- C10: from every prior state, `EMERGENCY_STOP` homes the base,
shoulder, elbow and wrist targets to 90, sets the gripper flag to open
(`false`), commands the gripper to its open angle (writes 0 in the first
sketch, stores target 120 in the second), and answers 200 with status
`Stop initiated`. -/
theorem emergency_stop_homes (d : CommandDoc) (sA : V1.State) (sB : V2.State)
    (h : d.command = "EMERGENCY_STOP") :
    (V1.handleCommand (.ok d) sA).1 = ⟨200, "Stop initiated"⟩ ∧
    (V1.handleCommand (.ok d) sA).2 =
      { sA with targetBaseAngle := 90, targetShoulderAngle := 90,
                targetElbowAngle := 90, targetWristAngle := 90,
                gripperServo := 0, gripperState := false } ∧
    (V2.handleCommand (.ok d) sB).1 = ⟨200, "Stop initiated"⟩ ∧
    (V2.handleCommand (.ok d) sB).2 =
      { sB with targetBaseAngle := 90, targetShoulderAngle := 90,
                targetElbowAngle := 90, targetWristAngle := 90,
                targetGripperAngle := 120, gripperState := false } := by
  obtain ⟨cmd, b?, sh?, e?, w?, g?⟩ := d
  simp only [CommandDoc.command] at h
  subst h
  refine ⟨?_, ?_, ?_, ?_⟩ <;> simp [V1.handleCommand, V2.handleCommand]

/-- Witness for C10: an emergency stop from a displaced, gripper-closed
state homes the base target and opens the gripper. -/
theorem emergency_stop_homes_witness :
    (V2.handleCommand (.ok ⟨"EMERGENCY_STOP", none, none, none, none, none⟩)
       { V2.init with targetBaseAngle := 13, gripperState := true }).2.targetBaseAngle = 90 ∧
    (V1.handleCommand (.ok ⟨"EMERGENCY_STOP", none, none, none, none, none⟩)
       { V1.init with gripperServo := 120 }).2.gripperServo = 0 := by
  have h := emergency_stop_homes ⟨"EMERGENCY_STOP", none, none, none, none, none⟩
    { V1.init with gripperServo := 120 }
    { V2.init with targetBaseAngle := 13, gripperState := true } rfl
  exact ⟨by rw [h.2.2.2], by rw [h.2.1]⟩

end ArmFw
